import Mathlib

/-!
Verification development for the TCP reverse-HTTP-tunnel core
(src/pointcloud/tcp_tunnel_server.py and src/pointcloud/tcp_tunnel_client.py).

Modelling conventions:
- Python str values are lists of Unicode code points (List Nat), because
  surrogateescape decoding produces lone surrogates that are not valid Lean
  Char values.  Python bytes values are lists of naturals below 256.
- Timestamps (time.time()) are modelled as naturals.
- Socket writers are identified by natural numbers; observable I/O is a list
  of Action values produced alongside the new state.
-/

set_option maxRecDepth 8000

namespace Tunnel

/-- Python str: a list of Unicode code points. -/
abbrev PyStr := List Nat

/-- Python bytes: a list of naturals below 256. -/
abbrev Bytes := List Nat

/-- Lift an ASCII Lean string literal to a modelled Python str. -/
def pyStr (s : String) : PyStr := s.toList.map Char.toNat

/-- CRLF as code points. -/
def crlf : PyStr := [13, 10]

/-- CRLFCRLF, the header/body separator. -/
def crlf2 : PyStr := [13, 10, 13, 10]

/-- Is the byte a UTF-8 continuation byte (0x80..0xBF)? -/
def isContByte (b : Nat) : Bool := decide (0x80 ≤ b ∧ b ≤ 0xBF)

/-- Admissible second byte of a 3- or 4-byte UTF-8 sequence led by b
(the ranges exclude overlong encodings, surrogates and values above U+10FFFF,
exactly as the CPython decoder does). -/
def cont2Ok (b b2 : Nat) : Bool :=
  if b = 0xE0 then decide (0xA0 ≤ b2 ∧ b2 ≤ 0xBF)
  else if b = 0xED then decide (0x80 ≤ b2 ∧ b2 ≤ 0x9F)
  else if b = 0xF0 then decide (0x90 ≤ b2 ∧ b2 ≤ 0xBF)
  else if b = 0xF4 then decide (0x80 ≤ b2 ∧ b2 ≤ 0x8F)
  else isContByte b2

/-- Fuel-driven worker for UTF-8 decoding; consumes at least one byte per
step, so fuel equal to the length of the input suffices. -/
def utf8DecodeFuel (onErr : Nat → List Nat) : Nat → Bytes → PyStr
  | 0, bs => bs.flatMap onErr
  | _, [] => []
  | fuel + 1, b :: rest =>
    if b < 0x80 then b :: utf8DecodeFuel onErr fuel rest
    else if 0xC2 ≤ b ∧ b ≤ 0xDF then
      match rest with
      | [] => onErr b
      | b2 :: rest2 =>
        if isContByte b2 then
          ((b - 0xC0) * 64 + (b2 - 0x80)) :: utf8DecodeFuel onErr fuel rest2
        else onErr b ++ utf8DecodeFuel onErr fuel (b2 :: rest2)
    else if 0xE0 ≤ b ∧ b ≤ 0xEF then
      match rest with
      | [] => onErr b
      | b2 :: rest2 =>
        if cont2Ok b b2 then
          match rest2 with
          | [] => onErr b ++ onErr b2
          | b3 :: rest3 =>
            if isContByte b3 then
              ((b - 0xE0) * 4096 + (b2 - 0x80) * 64 + (b3 - 0x80)) ::
                utf8DecodeFuel onErr fuel rest3
            else onErr b ++ onErr b2 ++ utf8DecodeFuel onErr fuel (b3 :: rest3)
        else onErr b ++ utf8DecodeFuel onErr fuel (b2 :: rest2)
    else if 0xF0 ≤ b ∧ b ≤ 0xF4 then
      match rest with
      | [] => onErr b
      | b2 :: rest2 =>
        if cont2Ok b b2 then
          match rest2 with
          | [] => onErr b ++ onErr b2
          | b3 :: rest3 =>
            if isContByte b3 then
              match rest3 with
              | [] => onErr b ++ onErr b2 ++ onErr b3
              | b4 :: rest4 =>
                if isContByte b4 then
                  ((b - 0xF0) * 262144 + (b2 - 0x80) * 4096 +
                    (b3 - 0x80) * 64 + (b4 - 0x80)) ::
                    utf8DecodeFuel onErr fuel rest4
                else onErr b ++ onErr b2 ++ onErr b3 ++
                  utf8DecodeFuel onErr fuel (b4 :: rest4)
            else onErr b ++ onErr b2 ++ utf8DecodeFuel onErr fuel (b3 :: rest3)
        else onErr b ++ utf8DecodeFuel onErr fuel (b2 :: rest2)
    else onErr b ++ utf8DecodeFuel onErr fuel rest

/-- CPython UTF-8 decoding with a per-byte error handler: a complete valid
sequence yields its code point; an ill-formed portion hands each of its bytes
to the handler (surrogateescape maps byte b to 0xDC00+b, ignore drops it),
following the maximal-subpart rule. -/
def utf8DecodeWith (onErr : Nat → List Nat) (bs : Bytes) : PyStr :=
  utf8DecodeFuel onErr (bs.length + 1) bs

/-- bytes.decode with errors equal to ignore: ill-formed bytes are dropped. -/
def utf8DecodeIgnore : Bytes → PyStr := utf8DecodeWith (fun _ => [])

/-- bytes.decode with errors equal to surrogateescape: ill-formed byte b
becomes the lone surrogate 0xDC00+b. -/
def utf8DecodeSE : Bytes → PyStr := utf8DecodeWith (fun b => [0xDC00 + b])

/-- Standard UTF-8 encoding of one code point. -/
def utf8EncodeChar (c : Nat) : Bytes :=
  if c < 0x80 then [c]
  else if c < 0x800 then [0xC0 + c / 64, 0x80 + c % 64]
  else if c < 0x10000 then
    [0xE0 + c / 4096, 0x80 + c / 64 % 64, 0x80 + c % 64]
  else
    [0xF0 + c / 262144, 0x80 + c / 4096 % 64, 0x80 + c / 64 % 64, 0x80 + c % 64]

/-- str.encode with errors equal to surrogateescape: surrogates 0xDC80..0xDCFF
turn back into the escaped byte, everything else is encoded normally. -/
def utf8EncodeSE (s : PyStr) : Bytes :=
  s.flatMap (fun c =>
    if 0xDC80 ≤ c ∧ c ≤ 0xDCFF then [c - 0xDC00] else utf8EncodeChar c)

/-- Strict str.encode: fails (raises UnicodeEncodeError) on any surrogate. -/
def utf8EncodeStrict (s : PyStr) : Option Bytes :=
  if s.all (fun c => decide (c < 0xD800 ∨ 0xDFFF < c)) then
    some (s.flatMap utf8EncodeChar)
  else none

/-- Can str.encode('utf-8') with errors equal to surrogateescape encode this
code point?  Surrogates are representable only in the escape range
U+DC80..U+DCFF; CPython raises UnicodeEncodeError on any other lone
surrogate (which JSON can deliver, since json.loads accepts escapes such as
a lone 0xD800). -/
def encodableSE (c : Nat) : Bool :=
  decide (c < 0xD800 ∨ 0xDFFF < c ∨ (0xDC80 ≤ c ∧ c ≤ 0xDCFF))

/-- str.encode('utf-8') with errors equal to surrogateescape, including its
raising behaviour: none models the UnicodeEncodeError raised on lone
surrogates outside the escape range. -/
def utf8EncodeSEChecked (s : PyStr) : Option Bytes :=
  if s.all encodableSE then some (utf8EncodeSE s) else none

/-- Is the string pure ASCII?  hmac.compare_digest raises TypeError when a
str argument contains non-ASCII characters. -/
def asciiStr (s : PyStr) : Bool := s.all (fun c => decide (c < 128))

/-- ASCII lowercasing, as applied by str.lower to the ASCII header text
handled by the tunnel. -/
def lowerAscii (s : PyStr) : PyStr :=
  s.map (fun c => if 65 ≤ c ∧ c ≤ 90 then c + 32 else c)

/-- Python whitespace characters recognised by str.strip. -/
def isPySpace (c : Nat) : Bool := decide (c = 32 ∨ (9 ≤ c ∧ c ≤ 13))

/-- str.strip with no arguments. -/
def pyStrip (s : PyStr) : PyStr :=
  ((s.dropWhile isPySpace).reverse.dropWhile isPySpace).reverse

/-- str.rstrip with argument the slash character. -/
def rstripSlash (s : PyStr) : PyStr :=
  (s.reverse.dropWhile (fun c => decide (c = 47))).reverse

/-- Fuel-driven worker for str.split on a non-empty separator. -/
def splitSubFuel (sep : List Nat) : Nat → List Nat → List Nat → List PyStr
  | 0, acc, xs => [acc.reverse ++ xs]
  | fuel + 1, acc, xs =>
    if sep.isPrefixOf xs then
      acc.reverse :: splitSubFuel sep fuel [] (xs.drop sep.length)
    else
      match xs with
      | [] => [acc.reverse]
      | x :: rest => splitSubFuel sep fuel (x :: acc) rest

/-- str.split on a non-empty separator string. -/
def pySplit (s sep : PyStr) : List PyStr := splitSubFuel sep (s.length + 1) [] s

/-- Fuel-driven worker for str.find. -/
def pyFindFuel (sep : List Nat) : Nat → Nat → List Nat → Option Nat
  | 0, _, _ => none
  | fuel + 1, i, xs =>
    if sep.isPrefixOf xs then some i
    else
      match xs with
      | [] => none
      | _ :: rest => pyFindFuel sep fuel (i + 1) rest

/-- str.find: index of the first occurrence of sep in s (none models -1). -/
def pyFind (s sep : PyStr) : Option Nat := pyFindFuel sep (s.length + 1) 0 s

/-- The Python membership test sub in s on strings. -/
def containsSub (s sub : PyStr) : Bool := (pyFind s sub).isSome

/-- Split at the first occurrence of a single character, as str.split(c, 1):
returns the part before and the part after (whole string and empty if absent). -/
def splitAtFirstChar (c : Nat) : PyStr → PyStr × PyStr
  | [] => ([], [])
  | x :: rest =>
    if x = c then ([], rest)
    else
      let p := splitAtFirstChar c rest
      (x :: p.1, p.2)

/-- int() applied to a stripped decimal string with optional sign. -/
def pyParseInt (s : PyStr) : Option Int :=
  let t := pyStrip s
  let core : PyStr × Bool :=
    match t with
    | 45 :: rest => (rest, true)
    | 43 :: rest => (rest, false)
    | _ => (t, false)
  if core.1 ≠ [] ∧ core.1.all (fun c => decide (48 ≤ c ∧ c ≤ 57)) then
    let v : Nat := core.1.foldl (fun a c => a * 10 + (c - 48)) 0
    some (if core.2 then -(v : Int) else (v : Int))
  else none

/-- Decimal rendering of a natural, as str() of a Python int. -/
def natStr (n : Nat) : PyStr := (Nat.toDigits 10 n).map Char.toNat

/-- Successive slices of at most n elements, as produced by the 256 KiB
chunked write loops in the source (fuel-driven worker). -/
def chunksOfFuel (n : Nat) : Nat → List Nat → List Bytes
  | 0, _ => []
  | _, [] => []
  | fuel + 1, xs => xs.take n :: chunksOfFuel n fuel (xs.drop n)

/-- The list of chunks written by a loop that slices xs in n-sized pieces. -/
def chunksOf (n : Nat) (xs : List Nat) : List Bytes :=
  chunksOfFuel n (xs.length + 1) xs

/-- Python dict assignment d[k] = v on an insertion-ordered association list:
updates in place if the key exists, appends otherwise. -/
def dictSet {κ α : Type} [BEq κ] (k : κ) (v : α) : List (κ × α) → List (κ × α)
  | [] => [(k, v)]
  | (k', v') :: rest =>
    if k' == k then (k', v) :: rest else (k', v') :: dictSet k v rest

/-- Python dict.pop(k) key removal on an association list. -/
def dictRemove {κ α : Type} [BEq κ] (k : κ) : List (κ × α) → List (κ × α)
  | [] => []
  | (k', v') :: rest =>
    if k' == k then rest else (k', v') :: dictRemove k rest

/-! ## HMAC-SHA256 (hashlib.sha256 and hmac.new used by both peers) -/

/-- Truncation to a 32-bit word. -/
def w32 (n : Nat) : Nat := n % 4294967296

/-- 32-bit right rotation. -/
def rotr32 (x n : Nat) : Nat :=
  w32 (Nat.lor (Nat.shiftRight x n) (Nat.shiftLeft x (32 - n)))

/-- Three-way xor. -/
def xor3 (a b c : Nat) : Nat := Nat.xor (Nat.xor a b) c

/-- SHA-256 lowercase sigma 0. -/
def ssig0 (x : Nat) : Nat := xor3 (rotr32 x 7) (rotr32 x 18) (Nat.shiftRight x 3)

/-- SHA-256 lowercase sigma 1. -/
def ssig1 (x : Nat) : Nat := xor3 (rotr32 x 17) (rotr32 x 19) (Nat.shiftRight x 10)

/-- SHA-256 uppercase Sigma 0. -/
def bsig0 (x : Nat) : Nat := xor3 (rotr32 x 2) (rotr32 x 13) (rotr32 x 22)

/-- SHA-256 uppercase Sigma 1. -/
def bsig1 (x : Nat) : Nat := xor3 (rotr32 x 6) (rotr32 x 11) (rotr32 x 25)

/-- SHA-256 choice function; NOT x is 0xFFFFFFFF - x on 32-bit words. -/
def chFn (x y z : Nat) : Nat :=
  Nat.xor (Nat.land x y) (Nat.land (4294967295 - w32 x) z)

/-- SHA-256 majority function. -/
def majFn (x y z : Nat) : Nat :=
  Nat.xor (Nat.xor (Nat.land x y) (Nat.land x z)) (Nat.land y z)

/-- The 64 SHA-256 round constants. -/
def sha256K : List Nat :=
  [1116352408, 1899447441, 3049323471, 3921009573, 961987163, 1508970993,
   2453635748, 2870763221, 3624381080, 310598401, 607225278, 1426881987,
   1925078388, 2162078206, 2614888103, 3248222580, 3835390401, 4022224774,
   264347078, 604807628, 770255983, 1249150122, 1555081692, 1996064986,
   2554220882, 2821834349, 2952996808, 3210313671, 3336571891, 3584528711,
   113926993, 338241895, 666307205, 773529912, 1294757372, 1396182291,
   1695183700, 1986661051, 2177026350, 2456956037, 2730485921, 2820302411,
   3259730800, 3345764771, 3516065817, 3600352804, 4094571909, 275423344,
   430227734, 506948616, 659060556, 883997877, 958139571, 1322822218,
   1537002063, 1747873779, 1955562222, 2024104815, 2227730452, 2361852424,
   2428436474, 2756734187, 3204031479, 3329325298]

/-- The eight per-round working variables of the compression function. -/
structure Hash8 where
  a : Nat
  b : Nat
  c : Nat
  d : Nat
  e : Nat
  f : Nat
  g : Nat
  h : Nat

/-- SHA-256 initial hash value. -/
def sha256H0 : Hash8 :=
  ⟨1779033703, 3144134277, 1013904242, 2773480762,
   1359893119, 2600822924, 528734635, 1541459225⟩

/-- One SHA-256 round, fed one constant and one schedule word. -/
def sha256Round (st : Hash8) (kw : Nat × Nat) : Hash8 :=
  let t1 := w32 (st.h + bsig1 st.e + chFn st.e st.f st.g + kw.1 + kw.2)
  let t2 := w32 (bsig0 st.a + majFn st.a st.b st.c)
  ⟨w32 (t1 + t2), st.a, st.b, st.c, w32 (st.d + t1), st.e, st.f, st.g⟩

/-- Big-endian 32-bit word from four bytes. -/
def bytesToWord (bs : List Nat) : Nat := bs.foldl (fun a b => a * 256 + b) 0

/-- Extend the 16 message words to the full 64-word schedule. -/
def sha256Extend : Nat → List Nat → List Nat
  | 0, ws => ws
  | fuel + 1, ws =>
    let n := ws.length
    sha256Extend fuel (ws ++
      [w32 (ssig1 (ws.getD (n - 2) 0) + ws.getD (n - 7) 0 +
            ssig0 (ws.getD (n - 15) 0) + ws.getD (n - 16) 0)])

/-- SHA-256 compression of one 64-byte block. -/
def sha256Compress (st : Hash8) (block : Bytes) : Hash8 :=
  let ws := sha256Extend 48 ((chunksOf 4 block).map bytesToWord)
  let t := (sha256K.zip ws).foldl sha256Round st
  ⟨w32 (st.a + t.a), w32 (st.b + t.b), w32 (st.c + t.c), w32 (st.d + t.d),
   w32 (st.e + t.e), w32 (st.f + t.f), w32 (st.g + t.g), w32 (st.h + t.h)⟩

/-- Big-endian 64-bit length field. -/
def be8Bytes (n : Nat) : Bytes :=
  [n / 2 ^ 56 % 256, n / 2 ^ 48 % 256, n / 2 ^ 40 % 256, n / 2 ^ 32 % 256,
   n / 2 ^ 24 % 256, n / 2 ^ 16 % 256, n / 2 ^ 8 % 256, n % 256]

/-- SHA-256 padding: 0x80, zeros to 56 mod 64, then the bit length. -/
def sha256Pad (msg : Bytes) : Bytes :=
  let z := (120 - (msg.length + 1) % 64) % 64
  msg ++ [0x80] ++ List.replicate z 0 ++ be8Bytes (8 * msg.length)

/-- Big-endian bytes of one 32-bit word. -/
def wordBytes (w : Nat) : Bytes :=
  [w / 2 ^ 24 % 256, w / 2 ^ 16 % 256, w / 2 ^ 8 % 256, w % 256]

/-- hashlib.sha256(msg).digest(). -/
def sha256 (msg : Bytes) : Bytes :=
  let fin := (chunksOf 64 (sha256Pad msg)).foldl sha256Compress sha256H0
  wordBytes fin.a ++ wordBytes fin.b ++ wordBytes fin.c ++ wordBytes fin.d ++
    wordBytes fin.e ++ wordBytes fin.f ++ wordBytes fin.g ++ wordBytes fin.h

/-- hmac.new(key, msg, hashlib.sha256).digest(). -/
def hmacSha256 (key msg : Bytes) : Bytes :=
  let k0 := if 64 < key.length then sha256 key else key
  let kPad := k0 ++ List.replicate (64 - k0.length) 0
  sha256 ((kPad.map (fun b => Nat.xor b 0x5C)) ++
    sha256 ((kPad.map (fun b => Nat.xor b 0x36)) ++ msg))

/-- One lowercase hexadecimal digit. -/
def hexChar (n : Nat) : Nat := if n < 10 then 48 + n else 87 + n

/-- Two lowercase hexadecimal digits of one byte. -/
def byteHex (b : Nat) : PyStr := [hexChar (b / 16), hexChar (b % 16)]

/-- bytes.hex() / hexdigest rendering of a digest. -/
def hexdigest (bs : Bytes) : PyStr := bs.flatMap byteHex

/-- create_signature, identical on TCPTunnelServer and TCPTunnelClient:
the lowercase hex HMAC-SHA256 of the payload under the shared secret. -/
def create_signature (secret payload : Bytes) : PyStr :=
  hexdigest (hmacSha256 secret payload)

/-- verify_signature, identical on both peers: recompute the expected
signature and compare with hmac.compare_digest (constant time in the
source; functionally an equality test on pure-ASCII strings).  This models
the non-raising case only: hmac.compare_digest raises TypeError when the
received signature string is not pure ASCII, and the server-side frame
handler below models that raising path explicitly before consulting this
comparison. -/
def verify_signature (secret payload : Bytes) (sig : PyStr) : Bool :=
  sig == create_signature secret payload

/-! ## JSON payloads and framing -/

/-- The parsed JSON object carried by one tunnel frame.  The source reads
fields with dict.get, so every field is optional; client_addr is the
(host, port) peername pair. -/
structure Payload where
  type : Option PyStr := none
  client_id : Option PyStr := none
  id : Option PyStr := none
  request_id : Option PyStr := none
  timestamp : Option Nat := none
  data : Option PyStr := none
  client_addr : Option (PyStr × Nat) := none

/-- Four lowercase hex digits, for a JSON unicode escape. -/
def jsonHex4 (n : Nat) : PyStr :=
  [hexChar (n / 4096 % 16), hexChar (n / 256 % 16), hexChar (n / 16 % 16),
   hexChar (n % 16)]

/-- json.dumps escaping of one character with ensure_ascii (the default):
printable ASCII passes through, the two JSON metacharacters and the short
control escapes use backslash forms, everything else becomes unicode escapes
(a surrogate pair for astral code points). -/
def jsonEscChar (c : Nat) : PyStr :=
  if c = 34 then [92, 34]
  else if c = 92 then [92, 92]
  else if c = 8 then [92, 98]
  else if c = 9 then [92, 116]
  else if c = 10 then [92, 110]
  else if c = 12 then [92, 102]
  else if c = 13 then [92, 114]
  else if 32 ≤ c ∧ c ≤ 126 then [c]
  else if c < 0x10000 then 92 :: 117 :: jsonHex4 c
  else
    (92 :: 117 :: jsonHex4 (0xD800 + (c - 0x10000) / 1024)) ++
      (92 :: 117 :: jsonHex4 (0xDC00 + (c - 0x10000) % 1024))

/-- json.dumps of a string value (ASCII bytes, given ensure_ascii). -/
def jsonStr (s : PyStr) : Bytes := [34] ++ s.flatMap jsonEscChar ++ [34]

/-- One key: value member of the serialised object. -/
def jsonMember (k : String) (v : Bytes) : Bytes :=
  jsonStr (pyStr k) ++ [58, 32] ++ v

/-- json.dumps(...).encode() of a frame payload.  Field order follows the
construction order of the dict literals in the source (register:
type, client_id, timestamp; request: id, timestamp, data, client_addr;
response: request_id, data), all three being restrictions of this order. -/
def dumps (p : Payload) : Bytes :=
  let fs : List Bytes :=
    (p.type.toList.map (fun v => jsonMember "type" (jsonStr v))) ++
    (p.client_id.toList.map (fun v => jsonMember "client_id" (jsonStr v))) ++
    (p.id.toList.map (fun v => jsonMember "id" (jsonStr v))) ++
    (p.request_id.toList.map (fun v => jsonMember "request_id" (jsonStr v))) ++
    (p.timestamp.toList.map (fun v => jsonMember "timestamp" (natStr v))) ++
    (p.data.toList.map (fun v => jsonMember "data" (jsonStr v))) ++
    (p.client_addr.toList.map (fun v =>
      jsonMember "client_addr" ([91] ++ jsonStr v.1 ++ [44, 32] ++ natStr v.2 ++ [93])))
  [123] ++ List.intercalate [44, 32] fs ++ [125]

/-- One frame after wire decoding: the hex signature string and the parsed
JSON payload. -/
structure Frame where
  sig : PyStr
  payload : Payload

/-- Big-endian u32, the signature length that leads each wire message. -/
def be4 (n : Nat) : Bytes :=
  [n / 2 ^ 24 % 256, n / 2 ^ 16 % 256, n / 2 ^ 8 % 256, n % 256]

/-- The wire encoding of one frame: sig_len, ASCII hex signature, payload. -/
def wireMessage (sig : PyStr) (payload : Bytes) : Bytes :=
  be4 sig.length ++ sig ++ payload

/-! ## Frontend Server (TCPTunnelServer) -/

/-- Observable I/O of the server: writes and closes on web (public HTTP)
writers, writes on tunnel client writers, and tunnel connection closes. -/
inductive Action where
  | writeWeb (w : Nat) (bs : Bytes)
  | closeWeb (w : Nat)
  | writeTunnel (w : Nat) (bs : Bytes)
  | closeTunnel (w : Nat)
deriving DecidableEq

/-- The mutable state of TCPTunnelServer: the client registry
(client_id to (writer, last_seen), keyed by dict.get so the key may be None)
and the pending-request table (request_id to (web_writer, timestamp)).
Both dicts are insertion-ordered association lists. -/
structure ServerState where
  clients : List (Option PyStr × Nat × Nat) := []
  pending : List (PyStr × Nat × Nat) := []
deriving DecidableEq

namespace TCPTunnelServer

/-- The 503 body written when the registry is empty. -/
def resp503 : Bytes := pyStr "HTTP/1.1 503 Service Unavailable\r\n\r\nNo client connected"

/-- The generic 500 body written by the web-request exception handler. -/
def resp500 : Bytes := pyStr "HTTP/1.1 500 Internal Server Error\r\n\r\nInternal error"

/-- The 500 body written when the write to the tunnel client fails. -/
def resp500Send : Bytes := pyStr "HTTP/1.1 500 Internal Server Error\r\n\r\nError sending to client"

/-- Update last_seen on the first registry entry whose writer is this tunnel
connection (the for/break loop over self.clients.items()). -/
def touchByWriter (conn now : Nat) :
    List (Option PyStr × Nat × Nat) → List (Option PyStr × Nat × Nat)
  | [] => []
  | (cid, w, t) :: rest =>
    if w = conn then (cid, w, now) :: rest
    else (cid, w, t) :: touchByWriter conn now rest

/-- The finally block of handle_client when tunnel connection conn ends
(EOF or an exception escaping the frame loop): delete every registry entry
whose writer is this connection and close the connection; the pending table
is not touched. -/
def handle_client_cleanup (conn : Nat) (st : ServerState) :
    ServerState × List Action :=
  ({ st with clients := st.clients.filter (fun e => decide (e.2.1 ≠ conn)) },
   [Action.closeTunnel conn])

/-- One iteration of the handle_client frame loop, after the wire read has
produced a complete frame on tunnel connection conn.  A non-ASCII signature
string makes hmac.compare_digest raise TypeError, which escapes the loop
into the except/finally of handle_client: the connection is torn down.  An
ASCII signature failing the comparison drops the frame and keeps the
connection.  A register frame inserts or replaces the client record.  Any
other verified frame refreshes last_seen and correlates request_id against
the pending table: when the id is pending the record is popped and the
writer closed by the inner finally, the data bytes being streamed in
256 KiB chunks when the surrogateescape encode succeeds and nothing being
written when it raises UnicodeEncodeError; an unmatched frame is dropped. -/
def handle_frame (secret : Bytes) (conn now : Nat) (st : ServerState)
    (fr : Frame) : ServerState × List Action :=
  if ¬ asciiStr fr.sig then handle_client_cleanup conn st
  else if ¬ verify_signature secret (dumps fr.payload) fr.sig then (st, [])
  else if fr.payload.type == some (pyStr "register") then
    ({ st with clients := dictSet fr.payload.client_id (conn, now) st.clients }, [])
  else
    let clients' := touchByWriter conn now st.clients
    match fr.payload.request_id with
    | none => ({ st with clients := clients' }, [])
    | some rid =>
      match st.pending.lookup rid with
      | none => ({ st with clients := clients' }, [])
      | some (webWriter, _) =>
        ({ clients := clients', pending := dictRemove rid st.pending },
         (match utf8EncodeSEChecked (fr.payload.data.getD []) with
          | some content =>
            (chunksOf 262144 content).map (Action.writeWeb webWriter)
          | none => []) ++ [Action.closeWeb webWriter])

/-- forward_to_client: serialise and sign the request dict, pick the first
registered client, send the wire message and record the pending request;
with an empty registry, answer 503 and close the web connection.  (The
write-failure 500 path has no counterpart in the pure model, where writes
always succeed.) -/
def forward_to_client (secret : Bytes) (now : Nat) (st : ServerState)
    (request_data : Payload) (webWriter : Nat) : ServerState × List Action :=
  let json_data := dumps request_data
  let signature := create_signature secret json_data
  let message := wireMessage signature json_data
  match st.clients with
  | [] => (st, [Action.writeWeb webWriter resp503, Action.closeWeb webWriter])
  | (_, clientWriter, _) :: _ =>
    ({ st with
        pending := dictSet (request_data.id.getD []) (webWriter, now) st.pending },
     [Action.writeTunnel clientWriter message])

/-- The Content-Length scan of handle_web_request: over the decoded header
lines, the first one whose lowercasing starts with content-length: is split
at the first colon and its value parsed by int(); absence leaves 0; an int()
failure raises (none). -/
def contentLengthOf (headersStr : PyStr) : Option Int :=
  findCL (pySplit headersStr crlf)
where
  /-- Walk the header lines, as the for/break loop does. -/
  findCL : List PyStr → Option Int
    | [] => some 0
    | line :: rest =>
      if (pyStr "content-length:").isPrefixOf (lowerAscii line) then
        pyParseInt (splitAtFirstChar 58 line).2
      else findCL rest

/-- handle_web_request: given the header bytes (read up to the first
CRLFCRLF) and the remaining inbound stream, read the Content-Length body,
build the request dict with the surrogateescape decoding of the raw bytes
and hand it to forward_to_client; any exception (bad Content-Length value or
a short read) answers with the generic 500 and closes. -/
def handle_web_request (secret : Bytes) (reqId : PyStr) (now : Nat)
    (clientAddr : Option (PyStr × Nat)) (st : ServerState)
    (headersData restOfStream : Bytes) (webWriter : Nat) :
    ServerState × List Action :=
  let headersStr := utf8DecodeIgnore headersData
  match contentLengthOf headersStr with
  | none => (st, [Action.writeWeb webWriter resp500, Action.closeWeb webWriter])
  | some cl =>
    let bodyLen := if 0 < cl then cl.toNat else 0
    if restOfStream.length < bodyLen then
      (st, [Action.writeWeb webWriter resp500, Action.closeWeb webWriter])
    else
      let full_request_data := headersData ++ restOfStream.take bodyLen
      let request_data : Payload :=
        { id := some reqId
          timestamp := some now
          data := some (utf8DecodeSE full_request_data)
          client_addr := clientAddr }
      forward_to_client secret now st request_data webWriter

/-- cleanup_inactive_clients: drop every registry entry older than 300
seconds (the once-per-minute sweep); the pending table is not touched. -/
def cleanup_inactive_clients (now : Nat) (st : ServerState) : ServerState :=
  { st with clients := st.clients.filter (fun e => decide (now - e.2.2 ≤ 300)) }

end TCPTunnelServer

/-! ## Tunnel Client (TCPTunnelClient) -/

namespace TCPTunnelClient

/-- What aiohttp hands back for one local call: status, reason phrase,
response headers, and the fully read body bytes. -/
structure LocalResponse where
  status : Nat
  reason : PyStr
  headers : List (PyStr × PyStr)
  body : Bytes

/-- Outcome of one local HTTP call: a response, or a raised exception
(timeout, connection refused, ...) carrying str(e). -/
inductive LocalResult where
  | ok (r : LocalResponse)
  | err (msg : PyStr)

/-- The request issued to the local service: method, composed URL, parsed
headers, and optional body bytes. -/
structure HttpCall where
  method : PyStr
  url : PyStr
  headers : List (PyStr × PyStr)
  body : Option Bytes

/-- The synthesised error response of the outer except handler:
a 500 wire string carrying str(e). -/
def errorResponseText (msg : PyStr) : PyStr :=
  pyStr "HTTP/1.1 500 Internal Server Error\r\nContent-Type: text/plain\r\n\r\nError forwarding request to local API: "
    ++ msg

/-- The header-line loop: split each line containing a colon at the first
colon and strip both sides into the headers dict. -/
def parseHeaders (lines : List PyStr) : List (PyStr × PyStr) :=
  lines.foldl (fun hs line =>
    if containsSub line [58] then
      let p := splitAtFirstChar 58 line
      dictSet (pyStrip p.1) (pyStrip p.2) hs
    else hs) []

/-- Assembly of the HTTP/1.1 response wire string: status line, the headers
with Transfer-Encoding filtered out, a blank line, and the body passed
through a lossy decode with errors equal to ignore (both branches of the
source build this same string). -/
def buildResponseText (r : LocalResponse) : PyStr :=
  let response_headers :=
    (r.headers.filter
        (fun kv => decide (lowerAscii kv.1 ≠ pyStr "transfer-encoding"))).map
      (fun kv => kv.1 ++ pyStr ": " ++ kv.2)
  pyStr "HTTP/1.1 " ++ natStr r.status ++ pyStr " " ++ r.reason ++ crlf ++
    List.intercalate crlf response_headers ++ crlf ++ crlf ++
    utf8DecodeIgnore r.body

/-- forward_request_to_local_api: split the frame data at the first CRLFCRLF
(ValueError when absent), parse the start line (ValueError under three
parts), build the headers dict and the target URL, issue the call to the
local service (raw bytes for multipart, strict UTF-8 of the string body
otherwise), and assemble the response payload; every raised exception is
answered by the synthesised 500 payload for the same request id. -/
def forward_request_to_local_api (localService : HttpCall → LocalResult)
    (local_api_url : PyStr) (request_data : Payload) : Payload :=
  let raw := request_data.data.getD []
  let mkErr := fun (msg : PyStr) =>
    ({ request_id := request_data.id, data := some (errorResponseText msg) } : Payload)
  match pyFind raw crlf2 with
  | none => mkErr (pyStr "无效的HTTP请求，未找到头部结束标记")
  | some hIdx =>
    let headers_part := raw.take hIdx
    let body_part := raw.drop (hIdx + 4)
    let lines := pySplit headers_part crlf
    let parts := pySplit (lines.headD []) (pyStr " ")
    if parts.length < 3 then mkErr (pyStr "无效的HTTP请求行")
    else
      let method := parts.getD 0 []
      let path := parts.getD 1 []
      let headers := parseHeaders (lines.drop 1)
      let api_url := rstripSlash local_api_url ++ path
      let content_type := (headers.lookup (pyStr "Content-Type")).getD []
      let call : Option HttpCall :=
        if containsSub content_type (pyStr "multipart/form-data") then
          some ⟨method, api_url, headers, some ((utf8EncodeSE raw).drop (hIdx + 4))⟩
        else if body_part = [] then some ⟨method, api_url, headers, none⟩
        else (utf8EncodeStrict body_part).map
          (fun bs => ⟨method, api_url, headers, some bs⟩)
      match call with
      | none => mkErr (pyStr "surrogates not allowed")
      | some c =>
        match localService c with
        | LocalResult.err e => mkErr e
        | LocalResult.ok r =>
          { request_id := request_data.id, data := some (buildResponseText r) }

/-- send_response_to_server: sign the serialised response payload and write
the wire message to the tunnel in 256 KiB chunks. -/
def send_response_to_server (secret : Bytes) (response_data : Payload) :
    List Bytes :=
  chunksOf 262144
    (wireMessage (create_signature secret (dumps response_data))
      (dumps response_data))

/-- The two observable steps of handle_request for one request frame: the
dispatch of the request to the local service and the emission of its
response frame on the tunnel. -/
inductive CEvent where
  | dispatch (id : PyStr)
  | emitResponse (id : PyStr)
deriving DecidableEq

/-- handle_request first dispatches to the local API, then (after awaiting
the full local response) emits the response frame. -/
def handle_request_events (request_data : Payload) : List CEvent :=
  [CEvent.dispatch (request_data.id.getD []),
   CEvent.emitResponse (request_data.id.getD [])]

/-- The receive_messages loop as an event trace: frames are read in order;
a frame failing signature verification is skipped; every other frame is
handled to completion by an awaited handle_request before the next frame is
read (the source awaits handle_request inline in the loop). -/
def receive_messages_trace (secret : Bytes) : List Frame → List CEvent
  | [] => []
  | fr :: rest =>
    if ¬ verify_signature secret (dumps fr.payload) fr.sig then
      receive_messages_trace secret rest
    else
      handle_request_events fr.payload ++ receive_messages_trace secret rest

end TCPTunnelClient

/-! ## Supporting lemmas -/

/-- A signature produced by create_signature verifies against the same
secret and payload. -/
theorem verify_create (secret payload : Bytes) :
    verify_signature secret payload (create_signature secret payload) = true := by
  simp [verify_signature]

/-- Every byte of a big-endian word rendering is below 256. -/
theorem wordBytes_lt (w : Nat) : ∀ b ∈ wordBytes w, b < 256 := by
  intro b hb
  simp only [wordBytes, List.mem_cons, List.not_mem_nil, or_false] at hb
  rcases hb with h | h | h | h <;> subst h <;> omega

/-- Every byte of a SHA-256 digest is below 256. -/
theorem sha256_all_lt (msg : Bytes) : ∀ b ∈ sha256 msg, b < 256 := by
  intro b hb
  simp only [sha256, List.mem_append] at hb
  rcases hb with ((((((h | h) | h) | h) | h) | h) | h) | h <;>
    exact wordBytes_lt _ b h

/-- A hexadecimal digit character is ASCII. -/
theorem hexChar_ascii (n : Nat) (h : n < 16) : hexChar n < 128 := by
  rw [hexChar]
  split <;> omega

/-- The hex signature produced by create_signature is pure ASCII, so
hmac.compare_digest never raises a TypeError on it. -/
theorem create_signature_ascii (secret payload : Bytes) :
    asciiStr (create_signature secret payload) = true := by
  rw [asciiStr, List.all_eq_true]
  intro c hc
  simp only [create_signature, hexdigest, hmacSha256, List.mem_flatMap] at hc
  obtain ⟨b, hb, hcb⟩ := hc
  have hb256 : b < 256 := sha256_all_lt _ b hb
  simp only [byteHex, List.mem_cons, List.not_mem_nil, or_false] at hcb
  have h1 : b / 16 < 16 := by omega
  have h2 : b % 16 < 16 := by omega
  rcases hcb with h | h <;> subst h <;>
    simp only [decide_eq_true_eq] <;>
    first
    | exact hexChar_ascii _ h1
    | exact hexChar_ascii _ h2

/-- A signature that verifies equals the hex digest itself, hence is pure
ASCII: verified frames never take the TypeError path. -/
theorem ascii_of_verify (secret payload : Bytes) (sig : PyStr)
    (h : verify_signature secret payload sig = true) : asciiStr sig = true := by
  have hsig : sig = create_signature secret payload := by
    simpa [verify_signature] using h
  rw [hsig]
  exact create_signature_ascii secret payload

/-- The chunked write loop loses nothing: with positive chunk size and
enough fuel, the chunks concatenate back to the content. -/
theorem chunksOfFuel_join (n : Nat) (hn : 0 < n) :
    ∀ fuel xs, xs.length ≤ fuel → (chunksOfFuel n fuel xs).flatten = xs := by
  intro fuel
  induction fuel with
  | zero =>
    intro xs hxs
    rw [Nat.le_zero, List.length_eq_zero] at hxs
    subst hxs
    rfl
  | succ f ih =>
    intro xs hxs
    match xs with
    | [] => rfl
    | x :: rest =>
      show ((x :: rest).take n :: chunksOfFuel n f ((x :: rest).drop n)).flatten
          = x :: rest
      rw [List.flatten, ih ((x :: rest).drop n), List.take_append_drop]
      have hlen : ((x :: rest).drop n).length = (x :: rest).length - n := by
        simp
      omega

/-- The 256 KiB chunk writes concatenate back to the full content. -/
theorem chunksOf_join (n : Nat) (hn : 0 < n) (xs : List Nat) :
    (chunksOf n xs).flatten = xs :=
  chunksOfFuel_join n hn (xs.length + 1) xs (Nat.le_succ _)

/-- When no registry entry holds this tunnel writer, the last_seen refresh
loop changes nothing. -/
theorem touchByWriter_id (conn now : Nat) :
    ∀ cs, (∀ e ∈ cs, e.2.1 ≠ conn) →
      TCPTunnelServer.touchByWriter conn now cs = cs := by
  intro cs
  induction cs with
  | nil => intro _; rfl
  | cons e rest ih =>
    intro h
    obtain ⟨cid, w, t⟩ := e
    have hw : w ≠ conn := h (cid, w, t) (List.mem_cons_self _ _)
    show TCPTunnelServer.touchByWriter conn now ((cid, w, t) :: rest) = _
    rw [TCPTunnelServer.touchByWriter, if_neg hw,
      ih (fun e he => h e (List.mem_cons_of_mem _ he))]

/-! ## Shared concrete fixtures for witnesses and counterexamples -/

/-- A concrete shared secret. -/
def secK : Bytes := pyStr "k"

/-- A concrete response payload for request id r1 with body HELLO. -/
def respP : Payload := { request_id := some (pyStr "r1"), data := some (pyStr "HELLO") }

/-- The response frame for respP, correctly signed under secK. -/
def frValid : Frame := { sig := create_signature secK (dumps respP), payload := respP }

/-- The same payload carrying an incorrect (empty) signature. -/
def frBad : Frame := { sig := [], payload := respP }

/-- A server state with an empty registry and one pending request r1 whose
web writer is 9. -/
def stPend : ServerState := { clients := [], pending := [(pyStr "r1", 9, 50)] }

/-- The same payload carrying a non-ASCII signature string (the one-char
string U+00E9, which the strict UTF-8 decode of the wire bytes produces and
on which hmac.compare_digest raises TypeError). -/
def frNonAscii : Frame := { sig := [233], payload := respP }

/-- A response payload for r1 whose data field is the lone surrogate U+D800
(deliverable through JSON as an escape, accepted by json.loads, but not
encodable by the surrogateescape encoder). -/
def respSurr : Payload := { request_id := some (pyStr "r1"), data := some [0xD800] }

/-- The correctly signed frame for respSurr. -/
def frSurr : Frame := { sig := create_signature secK (dumps respSurr), payload := respSurr }

/-! ## Claims -/

/-- C3 counterexample: a frame with an invalid (ASCII) signature received on
tunnel connection 3 is dropped without touching the registry or the pending
table, and the actions contain no close of the offending connection,
contradicting the claim that the connection is closed. -/
theorem claim_C3_counterexample :
    verify_signature secK (dumps frBad.payload) frBad.sig = false ∧
    TCPTunnelServer.handle_frame secK 3 100 stPend frBad = (stPend, []) ∧
    Action.closeTunnel 3 ∉ (TCPTunnelServer.handle_frame secK 3 100 stPend frBad).2 := by
  refine ⟨rfl, by decide, by decide⟩

/-- C3 amended: a frame failing signature verification is dropped with no
payload field interpreted and no registry entry created, but whether the
connection is closed depends on how the comparison fails.  An ASCII
signature string that merely compares unequal makes the loop continue: the
state is untouched, nothing is emitted, and the connection stays open.  A
non-ASCII signature string makes hmac.compare_digest raise TypeError, which
escapes into the except/finally of handle_client: the client records of
this connection are removed, the connection is closed, and the pending
table is still untouched. -/
theorem claim_C3_amended (secret : Bytes) (conn now : Nat) (st : ServerState)
    (fr : Frame) :
    (asciiStr fr.sig = true →
      verify_signature secret (dumps fr.payload) fr.sig = false →
      TCPTunnelServer.handle_frame secret conn now st fr = (st, [])) ∧
    (asciiStr fr.sig = false →
      TCPTunnelServer.handle_frame secret conn now st fr =
        ({ st with clients := st.clients.filter (fun e => decide (e.2.1 ≠ conn)) },
         [Action.closeTunnel conn])) := by
  constructor
  · intro hascii hbad
    simp [TCPTunnelServer.handle_frame, hascii, hbad]
  · intro hascii
    simp [TCPTunnelServer.handle_frame, TCPTunnelServer.handle_client_cleanup,
      hascii]

/-- C3 witness: the amended theorem at the concrete bad-ASCII-signature
frame (connection kept) and at the concrete non-ASCII-signature frame
(connection torn down), every hypothesis discharged by evaluation. -/
theorem claim_C3_witness :
    TCPTunnelServer.handle_frame secK 7 200 stPend frBad = (stPend, []) ∧
    TCPTunnelServer.handle_frame secK 7 200 stPend frNonAscii =
      ({ stPend with
          clients := stPend.clients.filter (fun e => decide (e.2.1 ≠ 7)) },
       [Action.closeTunnel 7]) :=
  ⟨(claim_C3_amended secK 7 200 stPend frBad).1 (by decide) rfl,
   (claim_C3_amended secK 7 200 stPend frNonAscii).2 (by decide)⟩

/-- C9: with an empty client registry, a public request is answered with
503 Service Unavailable and the connection closed, with the whole state
(and in particular the pending table) unchanged. -/
theorem claim_C9 (secret : Bytes) (now : Nat) (st : ServerState)
    (request_data : Payload) (webWriter : Nat) (hempty : st.clients = []) :
    TCPTunnelServer.forward_to_client secret now st request_data webWriter =
      (st, [Action.writeWeb webWriter TCPTunnelServer.resp503,
            Action.closeWeb webWriter]) := by
  simp [TCPTunnelServer.forward_to_client, hempty]

/-- C9 witness: the empty-registry theorem at a concrete state and request. -/
theorem claim_C9_witness :
    ({ clients := [], pending := [] } : ServerState).clients = [] ∧
    TCPTunnelServer.forward_to_client secK 100 { clients := [], pending := [] }
        { id := some (pyStr "r1"), data := some (pyStr "GET / HTTP/1.1\r\n\r\n") } 7 =
      ({ clients := [], pending := [] },
       [Action.writeWeb 7 TCPTunnelServer.resp503, Action.closeWeb 7]) :=
  ⟨rfl, claim_C9 secK 100 _ _ 7 rfl⟩

/-- C4 counterexample: a validly signed response frame arriving on tunnel
connection 3, from which no registration frame was ever accepted (the
registry is empty), is nevertheless acted upon: its data is written to the
pending frontend writer 9 and the pending record is consumed.  This
contradicts the claim that such frames are dropped. -/
theorem claim_C4_counterexample :
    stPend.clients = [] ∧
    verify_signature secK (dumps frValid.payload) frValid.sig = true ∧
    TCPTunnelServer.handle_frame secK 3 100 stPend frValid =
      ({ clients := [], pending := [] },
       [Action.writeWeb 9 (utf8EncodeSE (pyStr "HELLO")), Action.closeWeb 9]) := by
  refine ⟨rfl, verify_create secK (dumps respP), ?_⟩
  have h := verify_create secK (dumps respP)
  have ha := create_signature_ascii secK (dumps respP)
  simp only [TCPTunnelServer.handle_frame, frValid, h, ha, not_true,
    Bool.not_true, Bool.false_eq_true, not_false_eq_true, if_true, if_false,
    ite_true, ite_false]
  decide

/-- C4 amended: registration is not required before response frames are
acted upon.  A validly signed non-registration frame on an unregistered
connection is matched purely by request_id: when the id is pending, the
record is removed and the frontend writer closed, the data bytes being
written when the surrogateescape encode of the data field succeeds and
nothing being written when it raises on a lone surrogate outside
U+DC80..U+DCFF (the registry is left unchanged because the last_seen
refresh finds no entry for this connection). -/
theorem claim_C4_amended (secret : Bytes) (conn now : Nat) (st : ServerState)
    (fr : Frame)
    (hver : verify_signature secret (dumps fr.payload) fr.sig = true)
    (hreg : fr.payload.type ≠ some (pyStr "register"))
    (hunreg : ∀ e ∈ st.clients, e.2.1 ≠ conn)
    (rid : PyStr) (w ts : Nat)
    (hrid : fr.payload.request_id = some rid)
    (hlook : st.pending.lookup rid = some (w, ts)) :
    TCPTunnelServer.handle_frame secret conn now st fr =
      ({ clients := st.clients, pending := dictRemove rid st.pending },
       (match utf8EncodeSEChecked (fr.payload.data.getD []) with
        | some content => (chunksOf 262144 content).map (Action.writeWeb w)
        | none => []) ++ [Action.closeWeb w]) := by
  have hascii := ascii_of_verify secret (dumps fr.payload) fr.sig hver
  have hne : (fr.payload.type == some (pyStr "register")) = false := by
    simp [hreg]
  simp only [TCPTunnelServer.handle_frame, hascii, hver, hne, not_true,
    Bool.not_true, Bool.false_eq_true, not_false_eq_true, if_true, if_false,
    ite_true, ite_false, hrid, hlook,
    touchByWriter_id conn now st.clients hunreg]

/-- C4 witness: the amended theorem at the concrete unregistered-connection
state, with every hypothesis discharged by evaluation. -/
theorem claim_C4_witness :
    TCPTunnelServer.handle_frame secK 5 100 stPend frValid =
      ({ clients := stPend.clients, pending := dictRemove (pyStr "r1") stPend.pending },
       (match utf8EncodeSEChecked (frValid.payload.data.getD []) with
        | some content => (chunksOf 262144 content).map (Action.writeWeb 9)
        | none => []) ++ [Action.closeWeb 9]) :=
  claim_C4_amended secK 5 100 stPend frValid (verify_create secK (dumps respP))
    (by decide) (by decide) (pyStr "r1") 9 50 rfl (by decide)

/-- C8 counterexample: a validly signed response frame whose data field
carries the lone surrogate U+D800 (deliverable in JSON, accepted by
json.loads) matches the pending id r1: the record is popped and the
frontend writer closed, but the surrogateescape encode raises
UnicodeEncodeError inside the try block and NOTHING is written to the
writer, contradicting the claim that the data bytes are written verbatim
for every matched frame. -/
theorem claim_C8_counterexample :
    verify_signature secK (dumps frSurr.payload) frSurr.sig = true ∧
    TCPTunnelServer.handle_frame secK 3 100 stPend frSurr =
      ({ clients := [], pending := [] }, [Action.closeWeb 9]) ∧
    (∀ w bs, Action.writeWeb w bs ∉
      (TCPTunnelServer.handle_frame secK 3 100 stPend frSurr).2) := by
  have h := verify_create secK (dumps respSurr)
  have ha := create_signature_ascii secK (dumps respSurr)
  have heq : TCPTunnelServer.handle_frame secK 3 100 stPend frSurr =
      ({ clients := [], pending := [] }, [Action.closeWeb 9]) := by
    simp only [TCPTunnelServer.handle_frame, frSurr, h, ha, not_true,
      Bool.not_true, Bool.false_eq_true, not_false_eq_true, if_true, if_false,
      ite_true, ite_false]
    decide
  refine ⟨h, heq, ?_⟩
  intro w bs hmem
  rw [heq] at hmem
  simp at hmem

/-- C8 amended: for a validly signed non-registration frame whose
request_id is pending, the record is atomically removed and the frontend
writer closed; the data bytes are written verbatim (the chunk writes
concatenating back to exactly the surrogateescape encoding of the data
field) whenever the surrogateescape encode succeeds, which is always the
case for data that originated as surrogateescape-decoded bytes, but for a
data string carrying a lone surrogate outside U+DC80..U+DCFF the encode
raises and nothing is written.  A frame whose request_id is absent or
matches nothing changes only last_seen and produces no output. -/
theorem claim_C8_amended (secret : Bytes) (conn now : Nat) (st : ServerState)
    (fr : Frame)
    (hver : verify_signature secret (dumps fr.payload) fr.sig = true)
    (hreg : fr.payload.type ≠ some (pyStr "register")) :
    (∀ rid w ts, fr.payload.request_id = some rid →
      st.pending.lookup rid = some (w, ts) →
      TCPTunnelServer.handle_frame secret conn now st fr =
        ({ clients := TCPTunnelServer.touchByWriter conn now st.clients,
           pending := dictRemove rid st.pending },
         (match utf8EncodeSEChecked (fr.payload.data.getD []) with
          | some content => (chunksOf 262144 content).map (Action.writeWeb w)
          | none => []) ++ [Action.closeWeb w]) ∧
      (∀ content, utf8EncodeSEChecked (fr.payload.data.getD []) = some content →
        (chunksOf 262144 content).flatten = content)) ∧
    ((fr.payload.request_id = none ∨
      ∃ rid, fr.payload.request_id = some rid ∧ st.pending.lookup rid = none) →
      TCPTunnelServer.handle_frame secret conn now st fr =
        ({ st with clients := TCPTunnelServer.touchByWriter conn now st.clients },
         [])) := by
  have hascii := ascii_of_verify secret (dumps fr.payload) fr.sig hver
  have hne : (fr.payload.type == some (pyStr "register")) = false := by
    simp [hreg]
  constructor
  · intro rid w ts hrid hlook
    refine ⟨?_, fun content _ => chunksOf_join 262144 (by omega) content⟩
    simp only [TCPTunnelServer.handle_frame, hascii, hver, hne, not_true,
      Bool.not_true, Bool.false_eq_true, not_false_eq_true, if_true, if_false,
      ite_true, ite_false, hrid, hlook]
  · intro habs
    rcases habs with hnone | ⟨rid, hrid, hlook⟩
    · simp only [TCPTunnelServer.handle_frame, hascii, hver, hne, not_true,
        Bool.not_true, Bool.false_eq_true, not_false_eq_true, if_true,
        if_false, ite_true, ite_false, hnone]
    · simp only [TCPTunnelServer.handle_frame, hascii, hver, hne, not_true,
        Bool.not_true, Bool.false_eq_true, not_false_eq_true, if_true,
        if_false, ite_true, ite_false, hrid, hlook]

/-- C8 witness: the matched branch of the amended theorem at the concrete
pending state, plus the unmatched branch at a state with an empty pending
table. -/
theorem claim_C8_witness :
    TCPTunnelServer.handle_frame secK 3 100 stPend frValid =
      ({ clients := TCPTunnelServer.touchByWriter 3 100 stPend.clients,
         pending := dictRemove (pyStr "r1") stPend.pending },
       (match utf8EncodeSEChecked (frValid.payload.data.getD []) with
        | some content => (chunksOf 262144 content).map (Action.writeWeb 9)
        | none => []) ++ [Action.closeWeb 9]) ∧
    TCPTunnelServer.handle_frame secK 3 100 { clients := [], pending := [] } frValid =
      (({ clients := [], pending := [] } : ServerState), []) :=
  ⟨((claim_C8_amended secK 3 100 stPend frValid (verify_create secK (dumps respP))
      (by decide)).1 (pyStr "r1") 9 50 rfl (by decide)).1,
   (claim_C8_amended secK 3 100 { clients := [], pending := [] } frValid
      (verify_create secK (dumps respP)) (by decide)).2
     (Or.inr ⟨pyStr "r1", rfl, rfl⟩)⟩

/-- C10: the pending table only ever shrinks through the arrival of a frame
whose request_id matches: the inactivity sweep and the tunnel-connection
teardown leave it untouched; a handled frame that changes it must be
validly signed, not a registration, and carry a pending request_id, the
change being exactly the removal of that record; and the forwarder only
ever leaves it unchanged or adds the new record. -/
theorem claim_C10 :
    (∀ now st, (TCPTunnelServer.cleanup_inactive_clients now st).pending = st.pending) ∧
    (∀ conn st, (TCPTunnelServer.handle_client_cleanup conn st).1.pending = st.pending) ∧
    (∀ secret conn now st fr,
      (TCPTunnelServer.handle_frame secret conn now st fr).1.pending ≠ st.pending →
      verify_signature secret (dumps fr.payload) fr.sig = true ∧
      fr.payload.type ≠ some (pyStr "register") ∧
      ∃ rid w ts, fr.payload.request_id = some rid ∧
        st.pending.lookup rid = some (w, ts) ∧
        (TCPTunnelServer.handle_frame secret conn now st fr).1.pending =
          dictRemove rid st.pending) ∧
    (∀ secret now st rd w,
      (TCPTunnelServer.forward_to_client secret now st rd w).1.pending = st.pending ∨
      (TCPTunnelServer.forward_to_client secret now st rd w).1.pending =
        dictSet (rd.id.getD []) (w, now) st.pending) := by
  refine ⟨fun now st => rfl, fun conn st => rfl, ?_, ?_⟩
  · intro secret conn now st fr hch
    by_cases hA : asciiStr fr.sig = true
    · by_cases hv : verify_signature secret (dumps fr.payload) fr.sig = true
      · by_cases hr : (fr.payload.type == some (pyStr "register")) = true
        · exfalso
          apply hch
          simp only [TCPTunnelServer.handle_frame, hA, hv, hr, not_true,
            Bool.not_true, Bool.false_eq_true, not_false_eq_true, if_true,
            if_false, ite_true, ite_false]
        · rw [Bool.not_eq_true] at hr
          cases hrid : fr.payload.request_id with
          | none =>
            exfalso
            apply hch
            simp only [TCPTunnelServer.handle_frame, hA, hv, hr, hrid,
              not_true, Bool.not_true, Bool.false_eq_true, not_false_eq_true,
              if_true, if_false, ite_true, ite_false]
          | some rid =>
            cases hlook : st.pending.lookup rid with
            | none =>
              exfalso
              apply hch
              simp only [TCPTunnelServer.handle_frame, hA, hv, hr, hrid, hlook,
                not_true, Bool.not_true, Bool.false_eq_true, not_false_eq_true,
                if_true, if_false, ite_true, ite_false]
            | some wts =>
              obtain ⟨w, ts⟩ := wts
              refine ⟨hv, ?_, rid, w, ts, rfl, hlook, ?_⟩
              · intro heq
                rw [heq] at hr
                simp at hr
              · simp only [TCPTunnelServer.handle_frame, hA, hv, hr, hrid,
                  hlook, not_true, Bool.not_true, Bool.false_eq_true,
                  not_false_eq_true, if_true, if_false, ite_true, ite_false]
      · exfalso
        apply hch
        rw [Bool.not_eq_true] at hv
        simp [TCPTunnelServer.handle_frame, hA, hv]
    · exfalso
      apply hch
      rw [Bool.not_eq_true] at hA
      simp [TCPTunnelServer.handle_frame, TCPTunnelServer.handle_client_cleanup,
        hA]
  · intro secret now st rd w
    cases hcl : st.clients with
    | nil => exact Or.inl (by simp [TCPTunnelServer.forward_to_client, hcl])
    | cons e rest => exact Or.inr (by simp [TCPTunnelServer.forward_to_client, hcl])

/-- C10 witness: the frame-handling conjunct at the concrete pending state
and valid matching frame, its hypothesis (a changed pending table)
discharged by evaluation. -/
theorem claim_C10_witness :
    verify_signature secK (dumps frValid.payload) frValid.sig = true ∧
    frValid.payload.type ≠ some (pyStr "register") ∧
    ∃ rid w ts, frValid.payload.request_id = some rid ∧
      stPend.pending.lookup rid = some (w, ts) ∧
      (TCPTunnelServer.handle_frame secK 3 100 stPend frValid).1.pending =
        dictRemove rid stPend.pending :=
  claim_C10.2.2.1 secK 3 100 stPend frValid (by
    have h := verify_create secK (dumps respP)
    have ha := create_signature_ascii secK (dumps respP)
    simp only [TCPTunnelServer.handle_frame, frValid, h, ha, not_true,
      Bool.not_true, Bool.false_eq_true, not_false_eq_true, if_true, if_false,
      ite_true, ite_false]
    decide)

/-- C7 counterexample: a request forwarded over tunnel connection 3 leaves a
pending record; when connection 3 is torn down, the client record is removed
but the pending record survives in full, contradicting the claim that all
pending work associated with the connection is cancelled. -/
theorem claim_C7_counterexample :
    (∃ bs, (TCPTunnelServer.forward_to_client secK 100
        { clients := [(some (pyStr "c1"), 3, 99)], pending := [] }
        { id := some (pyStr "q1"), data := some (pyStr "GET / HTTP/1.1\r\n\r\n") }
        7).2 = [Action.writeTunnel 3 bs]) ∧
    (TCPTunnelServer.handle_client_cleanup 3
        (TCPTunnelServer.forward_to_client secK 100
          { clients := [(some (pyStr "c1"), 3, 99)], pending := [] }
          { id := some (pyStr "q1"), data := some (pyStr "GET / HTTP/1.1\r\n\r\n") }
          7).1).1 =
      { clients := [], pending := [(pyStr "q1", 7, 100)] } := by
  exact ⟨⟨_, rfl⟩, by decide⟩

/-- C7 amended: when a tunnel connection ends, every client record whose
writer handle is that connection is removed and every other client record is
kept, the connection is closed, but the pending-request table is left
completely unchanged: pending work is not cancelled. -/
theorem claim_C7_amended (conn : Nat) (st : ServerState) :
    (∀ e ∈ (TCPTunnelServer.handle_client_cleanup conn st).1.clients,
      e.2.1 ≠ conn) ∧
    (∀ e ∈ st.clients, e.2.1 ≠ conn →
      e ∈ (TCPTunnelServer.handle_client_cleanup conn st).1.clients) ∧
    (TCPTunnelServer.handle_client_cleanup conn st).1.pending = st.pending ∧
    (TCPTunnelServer.handle_client_cleanup conn st).2 =
      [Action.closeTunnel conn] := by
  refine ⟨?_, ?_, rfl, rfl⟩
  · intro e he
    simp only [TCPTunnelServer.handle_client_cleanup, List.mem_filter,
      decide_eq_true_eq] at he
    exact he.2
  · intro e he hne
    simp only [TCPTunnelServer.handle_client_cleanup, List.mem_filter,
      decide_eq_true_eq]
    exact ⟨he, hne⟩

/-- C7 witness: the amended theorem at a concrete two-client state, keeping
the record of the other connection and the pending record. -/
theorem claim_C7_witness :
    ((some (pyStr "c2"), 4, 99) : Option PyStr × Nat × Nat) ∈
      (TCPTunnelServer.handle_client_cleanup 3
        { clients := [(some (pyStr "c1"), 3, 99), (some (pyStr "c2"), 4, 99)],
          pending := [(pyStr "q1", 7, 100)] }).1.clients ∧
    (TCPTunnelServer.handle_client_cleanup 3
        { clients := [(some (pyStr "c1"), 3, 99), (some (pyStr "c2"), 4, 99)],
          pending := [(pyStr "q1", 7, 100)] }).1.pending =
      [(pyStr "q1", 7, 100)] :=
  ⟨(claim_C7_amended 3 _).2.1 _ (by decide) (by decide),
   (claim_C7_amended 3 _).2.2.1⟩

/-- C5: the web-request handler at the Frontend Server never inspects
Transfer-Encoding.  A public request carrying Transfer-Encoding: chunked is
forwarded over the tunnel (with an empty body, since there is no
Content-Length) and a pending record is created; nothing at all is written
back to the public connection, in particular no 501 Not Implemented.  The
spec (sections 4.2 and 9) mandates a 501 rejection, so this is a bug in the
source. -/
theorem claim_C5_code_bug :
    (∃ bs, (TCPTunnelServer.handle_web_request secK (pyStr "id1") 100 none
        { clients := [(some (pyStr "c1"), 3, 99)], pending := [] }
        (pyStr "POST /x HTTP/1.1\r\nTransfer-Encoding: chunked\r\n\r\n") [] 7).2 =
      [Action.writeTunnel 3 bs]) ∧
    (TCPTunnelServer.handle_web_request secK (pyStr "id1") 100 none
        { clients := [(some (pyStr "c1"), 3, 99)], pending := [] }
        (pyStr "POST /x HTTP/1.1\r\nTransfer-Encoding: chunked\r\n\r\n") [] 7).1.pending =
      [(pyStr "id1", 7, 100)] ∧
    ((TCPTunnelServer.handle_web_request secK (pyStr "id1") 100 none
        { clients := [(some (pyStr "c1"), 3, 99)], pending := [] }
        (pyStr "POST /x HTTP/1.1\r\nTransfer-Encoding: chunked\r\n\r\n") [] 7).2.all
      (fun a => match a with
        | Action.writeTunnel _ _ => true
        | _ => false)) = true := by
  refine ⟨⟨_, rfl⟩, by decide, rfl⟩

/-- C6 counterexample: a request frame whose data has no CRLFCRLF blank line
is answered with a synthesised HTTP/1.1 500 response, not the 400 the claim
requires. -/
theorem claim_C6_counterexample :
    ((TCPTunnelClient.forward_request_to_local_api
        (fun _ => TCPTunnelClient.LocalResult.err [])
        (pyStr "http://localhost:5001")
        { id := some (pyStr "q1"), data := some (pyStr "garbage") }).data.getD
        []).take 12 = pyStr "HTTP/1.1 500" ∧
    ((TCPTunnelClient.forward_request_to_local_api
        (fun _ => TCPTunnelClient.LocalResult.err [])
        (pyStr "http://localhost:5001")
        { id := some (pyStr "q1"), data := some (pyStr "garbage") }).data.getD
        []).take 12 ≠ pyStr "HTTP/1.1 400" := by
  exact ⟨by decide, by decide⟩

/-- C6 amended: for a request frame whose data is malformed as an HTTP
request (no CRLF CRLF blank line, or a start line with fewer than three
space-separated parts), the Tunnel Client synthesises an HTTP/1.1 500
response (not 400: the ValueError is caught by the generic handler) and
returns it as the response payload for that request id. -/
theorem claim_C6_amended
    (localService : TCPTunnelClient.HttpCall → TCPTunnelClient.LocalResult)
    (local_api_url : PyStr) (rd : Payload)
    (h : pyFind (rd.data.getD []) crlf2 = none ∨
      ∃ hIdx, pyFind (rd.data.getD []) crlf2 = some hIdx ∧
        (pySplit ((pySplit ((rd.data.getD []).take hIdx) crlf).headD [])
          (pyStr " ")).length < 3) :
    ∃ msg, TCPTunnelClient.forward_request_to_local_api localService
        local_api_url rd =
      { request_id := rd.id, data := some (TCPTunnelClient.errorResponseText msg) } ∧
      (pyStr "HTTP/1.1 500 Internal Server Error").isPrefixOf
        (TCPTunnelClient.errorResponseText msg) = true := by
  rcases h with hnone | ⟨hIdx, hfind, hlt⟩
  · refine ⟨pyStr "无效的HTTP请求，未找到头部结束标记", ?_, by decide⟩
    simp only [TCPTunnelClient.forward_request_to_local_api, hnone]
  · refine ⟨pyStr "无效的HTTP请求行", ?_, by decide⟩
    simp only [TCPTunnelClient.forward_request_to_local_api, hfind]
    rw [if_pos hlt]

/-- C6 witness: the amended theorem at a concrete frame whose start line has
only two parts. -/
theorem claim_C6_witness :
    ∃ msg, TCPTunnelClient.forward_request_to_local_api
        (fun _ => TCPTunnelClient.LocalResult.err [])
        (pyStr "http://localhost:5001")
        { id := some (pyStr "q2"), data := some (pyStr "AB CD\r\n\r\n") } =
      { request_id := some (pyStr "q2"),
        data := some (TCPTunnelClient.errorResponseText msg) } ∧
      (pyStr "HTTP/1.1 500 Internal Server Error").isPrefixOf
        (TCPTunnelClient.errorResponseText msg) = true :=
  claim_C6_amended (fun _ => TCPTunnelClient.LocalResult.err [])
    (pyStr "http://localhost:5001")
    { id := some (pyStr "q2"), data := some (pyStr "AB CD\r\n\r\n") }
    (Or.inr ⟨5, by decide, by decide⟩)

/-- C1: the response-frame assembly re-encodes the local body through
bytes.decode with errors equal to ignore.  For a local 200 response whose
body is the single byte 0x80, the lossy decode drops the byte: the
assembled wire string carries an empty body, and the bytes the Frontend
Server would write to the public connection contain no 0x80 at all, so the
delivered body differs from R.  The spec (section 9, open question 2) marks
exactly this lossy decode as a bug in the source that must be fixed, so the
claim is right and the code is wrong. -/
theorem claim_C1_code_bug :
    utf8DecodeIgnore [0x80] = [] ∧
    (TCPTunnelClient.forward_request_to_local_api
        (fun _ => TCPTunnelClient.LocalResult.ok ⟨200, pyStr "OK", [], [0x80]⟩)
        (pyStr "http://localhost:5001")
        { id := some (pyStr "q2"),
          data := some (pyStr "GET /h HTTP/1.1\r\n\r\n") }).data =
      some (pyStr "HTTP/1.1 200 OK\r\n\r\n\r\n") ∧
    ((utf8EncodeSE ((TCPTunnelClient.forward_request_to_local_api
        (fun _ => TCPTunnelClient.LocalResult.ok ⟨200, pyStr "OK", [], [0x80]⟩)
        (pyStr "http://localhost:5001")
        { id := some (pyStr "q2"),
          data := some (pyStr "GET /h HTTP/1.1\r\n\r\n") }).data.getD [])).all
      (fun b => decide (b ≠ 0x80))) = true := by
  refine ⟨rfl, by decide, by decide⟩

/-- A concrete request payload with id a, as forwarded by the server. -/
def reqPa : Payload :=
  { id := some (pyStr "a"), timestamp := some 1,
    data := some (pyStr "GET / HTTP/1.1\r\n\r\n"),
    client_addr := some (pyStr "1.2.3.4", 5) }

/-- A concrete request payload with id b. -/
def reqPb : Payload :=
  { id := some (pyStr "b"), timestamp := some 2,
    data := some (pyStr "GET / HTTP/1.1\r\n\r\n"),
    client_addr := some (pyStr "1.2.3.4", 5) }

/-- The correctly signed request frame for reqPa. -/
def frA : Frame := { sig := create_signature secK (dumps reqPa), payload := reqPa }

/-- The correctly signed request frame for reqPb. -/
def frB : Frame := { sig := create_signature secK (dumps reqPb), payload := reqPb }

/-- C2 counterexample: for two request frames received on the tunnel, the
client trace is strictly sequential: the response frame for the first
request is emitted before the second request is dispatched to the local
service (the loop awaits handle_request inline), so the second request is
never dispatched before the first response is emitted and response order
always matches request order. -/
theorem claim_C2_counterexample :
    TCPTunnelClient.receive_messages_trace secK [frA, frB] =
      [TCPTunnelClient.CEvent.dispatch (pyStr "a"),
       TCPTunnelClient.CEvent.emitResponse (pyStr "a"),
       TCPTunnelClient.CEvent.dispatch (pyStr "b"),
       TCPTunnelClient.CEvent.emitResponse (pyStr "b")] ∧
    (TCPTunnelClient.receive_messages_trace secK [frA, frB]).indexOf
        (TCPTunnelClient.CEvent.emitResponse (pyStr "a")) <
      (TCPTunnelClient.receive_messages_trace secK [frA, frB]).indexOf
        (TCPTunnelClient.CEvent.dispatch (pyStr "b")) := by
  have ha := verify_create secK (dumps reqPa)
  have hb := verify_create secK (dumps reqPb)
  have htr : TCPTunnelClient.receive_messages_trace secK [frA, frB] =
      [TCPTunnelClient.CEvent.dispatch (pyStr "a"),
       TCPTunnelClient.CEvent.emitResponse (pyStr "a"),
       TCPTunnelClient.CEvent.dispatch (pyStr "b"),
       TCPTunnelClient.CEvent.emitResponse (pyStr "b")] := by
    simp only [TCPTunnelClient.receive_messages_trace, frA, frB, ha, hb,
      not_true, Bool.not_true, Bool.false_eq_true, not_false_eq_true, if_true,
      if_false, ite_true, ite_false]
    decide
  rw [htr]
  exact ⟨rfl, by decide⟩

/-- C2 amended: the Tunnel Client processes request frames strictly
sequentially.  The event trace of the receive loop is the concatenation of
the per-frame traces, and the trace of one frame is its dispatch
immediately followed by the emission of its response (nothing when the
signature fails), so every event of an earlier frame precedes every event of
a later one: the second of two requests is dispatched only after the first
response frame has been emitted. -/
theorem claim_C2_amended (secret : Bytes) :
    (∀ fs1 fs2 : List Frame,
      TCPTunnelClient.receive_messages_trace secret (fs1 ++ fs2) =
        TCPTunnelClient.receive_messages_trace secret fs1 ++
          TCPTunnelClient.receive_messages_trace secret fs2) ∧
    (∀ fr : Frame,
      TCPTunnelClient.receive_messages_trace secret [fr] =
        if verify_signature secret (dumps fr.payload) fr.sig then
          [TCPTunnelClient.CEvent.dispatch (fr.payload.id.getD []),
           TCPTunnelClient.CEvent.emitResponse (fr.payload.id.getD [])]
        else []) := by
  constructor
  · intro fs1 fs2
    induction fs1 with
    | nil => rfl
    | cons fr rest ih =>
      by_cases h : verify_signature secret (dumps fr.payload) fr.sig = true
      · simp [TCPTunnelClient.receive_messages_trace, h, ih,
          TCPTunnelClient.handle_request_events]
      · simp [TCPTunnelClient.receive_messages_trace, h, ih]
  · intro fr
    by_cases h : verify_signature secret (dumps fr.payload) fr.sig = true
    · simp [TCPTunnelClient.receive_messages_trace, h,
        TCPTunnelClient.handle_request_events]
    · simp [TCPTunnelClient.receive_messages_trace, h]

end Tunnel
